import Mathlib

/-
Verification of the page-enhancement scripts in src/assets/js/main.js:
ThemeManager, ReadingProgress, LazyLoader and CodeBlockCopy. Each class
is embedded shallowly: DOM and browser state that the code reads or
writes becomes an explicit state record, JS numbers become rationals
extended with NaN and the two infinities where the arithmetic can leave
the finite range, and JS truthiness tests on nullable strings are made
explicit.
-/

/-- JS truthiness of a nullable string: null and the empty string are
falsy, every other string is truthy. Used for the checks
`if (!this.getSavedTheme())` and `if (src)` in main.js. -/
def jsTruthy : Option String → Bool
  | none => false
  | some s => decide (s ≠ "")

/-- JS `a || b` on a nullable string `a` and a string default `b`:
returns `b` when `a` is null or empty, otherwise the value of `a`.
Used for `savedTheme || systemPreference` and
`getAttribute('data-theme') || 'light'` in main.js. -/
def jsOr (a : Option String) (b : String) : String :=
  match a with
  | none => b
  | some s => if s = "" then b else s

/-- State touched by ThemeManager (main.js lines 2-63): the
localStorage key `theme`, the `data-theme` attribute on the document
element, the text content of the optional theme icon element (none when
the element is absent), and the ambient system dark-mode preference. -/
structure ThemeState where
  savedTheme : Option String
  docTheme : Option String
  themeIcon : Option String
  ambientDark : Bool
  deriving DecidableEq

/-- ThemeManager.getSystemPreference: `'dark'` when the media query
`(prefers-color-scheme: dark)` matches, else `'light'`. -/
def getSystemPreference (s : ThemeState) : String :=
  if s.ambientDark then "dark" else "light"

/-- ThemeManager.getSavedTheme: `localStorage.getItem('theme')`. -/
def getSavedTheme (s : ThemeState) : Option String :=
  s.savedTheme

/-- ThemeManager.updateIcon: no-op when the icon element is absent,
otherwise sets its text to the sun glyph for dark and the moon glyph
for light. -/
def updateIcon (s : ThemeState) (theme : String) : ThemeState :=
  match s.themeIcon with
  | none => s
  | some _ => { s with themeIcon := some (if theme = "dark" then "☀️" else "🌙") }

/-- ThemeManager.setTheme: sets the `data-theme` document attribute,
writes the theme to localStorage, and updates the icon. Note that the
localStorage write is unconditional. -/
def setTheme (s : ThemeState) (theme : String) : ThemeState :=
  updateIcon { s with docTheme := some theme, savedTheme := some theme } theme

/-- ThemeManager.loadTheme: resolves `savedTheme || systemPreference`,
applies it via setTheme and updates the icon again. Runs at startup. -/
def loadTheme (s : ThemeState) : ThemeState :=
  let savedChoice := getSavedTheme s
  let systemPreference := getSystemPreference s
  let theme := jsOr savedChoice systemPreference
  updateIcon (setTheme s theme) theme

/-- ThemeManager.toggleTheme: reads the current document attribute with
default `'light'`, flips light to dark and anything else to light, and
applies the result via setTheme. -/
def toggleTheme (s : ThemeState) : ThemeState :=
  let currentTheme := jsOr s.docTheme "light"
  let newTheme := if currentTheme = "light" then "dark" else "light"
  setTheme s newTheme

/-- The change handler registered by ThemeManager.bindEvents on the
`(prefers-color-scheme: dark)` media query: the event itself carries
the new ambient value; the handler calls setTheme only when no saved
theme is present (JS falsy check). -/
def ambientChangeEvent (s : ThemeState) (evMatches : Bool) : ThemeState :=
  let s1 : ThemeState := { s with ambientDark := evMatches }
  if jsTruthy (getSavedTheme s1) then s1
  else setTheme s1 (if evMatches then "dark" else "light")

/-- Unfolding lemma: jsOr on a present value. -/
theorem jsOr_some (s b : String) : jsOr (some s) b = if s = "" then b else s := rfl

/-- Helper: the document attribute and the saved theme after a toggle
are both the flipped theme, and the ambient flag is untouched. -/
theorem toggleTheme_fields (s : ThemeState) :
    (toggleTheme s).docTheme
        = some (if jsOr s.docTheme "light" = "light" then "dark" else "light")
      ∧ (toggleTheme s).savedTheme
        = some (if jsOr s.docTheme "light" = "light" then "dark" else "light")
      ∧ (toggleTheme s).ambientDark = s.ambientDark := by
  obtain ⟨sv, dc, ic, amb⟩ := s
  cases ic <;> exact ⟨rfl, rfl, rfl⟩

/-- C1: the claim says the ambient-change path applies the theme
without writing persistent storage. Evaluating the code at the failing
input (no saved theme, ambient flips to dark) shows that the handler
calls setTheme, which writes `'dark'` to localStorage: the saved theme
becomes present, so the storage write is not restricted to explicit
user toggles. -/
theorem c1_ambient_change_writes_storage :
    (ambientChangeEvent ⟨none, some "light", none, false⟩ true).savedTheme = some "dark"
      ∧ (ambientChangeEvent ⟨none, some "light", none, false⟩ true).docTheme = some "dark" := by
  decide

/-- C2: the claim says that while no persisted choice exists the
effective theme tracks the ambient preference live until an explicit
user toggle. Evaluating the code on a fresh state (no saved theme,
ambient light) shows that startup (loadTheme) already persists
`'light'`, so a subsequent ambient change to dark leaves the document
theme at `'light'` even though the user never toggled: the effective
theme does not track the ambient preference. -/
theorem c2_ambient_change_not_tracked_after_startup :
    (ambientChangeEvent (loadTheme ⟨none, none, none, false⟩) true).docTheme = some "light"
      ∧ (ambientChangeEvent (loadTheme ⟨none, none, none, false⟩) true).ambientDark = true
      ∧ (loadTheme ⟨none, none, none, false⟩).savedTheme = some "light" := by
  decide

/-- C9 counterexample: from a starting state whose document theme
attribute is the (invalid) string `'blue'`, toggling twice does not
return the system to the original state: the document attribute ends at
`'dark'`. -/
theorem c9_counterexample_double_toggle :
    toggleTheme (toggleTheme ⟨none, some "blue", none, false⟩)
      ≠ (⟨none, some "blue", none, false⟩ : ThemeState)
      ∧ (toggleTheme (toggleTheme ⟨none, some "blue", none, false⟩)).docTheme = some "dark" := by
  decide

/-- C9 (amended): toggling twice is the identity on every state that is
consistent with a theme t in (light, dark): document attribute and
saved theme equal t and the icon, when present, shows the glyph for t.
Every state produced by a toggle or by setTheme with a valid theme is
of this shape. -/
theorem c9_double_toggle_involutive_on_consistent (s : ThemeState) (t : String)
    (hdoc : s.docTheme = some t) (ht : t = "light" ∨ t = "dark")
    (hsaved : s.savedTheme = some t)
    (hicon : s.themeIcon = none ∨ s.themeIcon = some (if t = "dark" then "☀️" else "🌙")) :
    toggleTheme (toggleTheme s) = s := by
  obtain ⟨sv, dc, ic, amb⟩ := s
  simp only at hdoc hsaved hicon
  subst hdoc hsaved
  rcases ht with rfl | rfl <;> rcases hicon with rfl | rfl <;> cases amb <;> decide

/-- C9 witness: the amended involutivity at the concrete consistent
state with theme light and no icon element. -/
theorem c9_double_toggle_involutive_on_consistent_witness :
    toggleTheme (toggleTheme ⟨some "light", some "light", none, false⟩)
      = (⟨some "light", some "light", none, false⟩ : ThemeState) :=
  c9_double_toggle_involutive_on_consistent
    ⟨some "light", some "light", none, false⟩ "light" rfl (Or.inl rfl) rfl (Or.inl rfl)

/-- C10 counterexample: on a state with an absent document theme
attribute, toggleTheme produces `'dark'`, not `'light'` as the claim
states (the code defaults an absent attribute to `'light'` and then
flips it). -/
theorem c10_counterexample_absent_maps_to_dark :
    (toggleTheme ⟨none, none, none, false⟩).docTheme ≠ some "light"
      ∧ (toggleTheme ⟨none, none, none, false⟩).docTheme = some "dark" := by
  decide

/-- C10 (amended): toggleTheme maps the values `'light'`, an absent
attribute and the empty value to `'dark'`, and every other current
value to `'light'`; after any single toggle the document attribute and
the persisted value agree and lie in (light, dark). -/
theorem c10_toggle_mapping (s : ThemeState) :
    ((s.docTheme = none ∨ s.docTheme = some "" ∨ s.docTheme = some "light") →
        (toggleTheme s).docTheme = some "dark" ∧ (toggleTheme s).savedTheme = some "dark")
      ∧ (∀ v : String, s.docTheme = some v → v ≠ "" → v ≠ "light" →
        (toggleTheme s).docTheme = some "light" ∧ (toggleTheme s).savedTheme = some "light")
      ∧ ((toggleTheme s).docTheme = some "light" ∨ (toggleTheme s).docTheme = some "dark")
      ∧ (toggleTheme s).savedTheme = (toggleTheme s).docTheme := by
  obtain ⟨hdocEq, hsavedEq, -⟩ := toggleTheme_fields s
  refine ⟨?_, ?_, ?_, ?_⟩
  · rintro (h | h | h) <;> rw [hdocEq, hsavedEq, h] <;> exact ⟨rfl, rfl⟩
  · intro v hv hvEmpty hvLight
    rw [hdocEq, hsavedEq, hv, jsOr_some, if_neg hvEmpty, if_neg hvLight]
    exact ⟨rfl, rfl⟩
  · rw [hdocEq]
    by_cases hc : jsOr s.docTheme "light" = "light"
    · rw [if_pos hc]; exact Or.inr rfl
    · rw [if_neg hc]; exact Or.inl rfl
  · rw [hdocEq, hsavedEq]

/-- C10 witness: the amended mapping at a state with an absent
attribute, concluding that a single toggle lands on `'dark'` in both
the document attribute and persistent storage. -/
theorem c10_toggle_mapping_witness :
    (toggleTheme ⟨none, none, none, false⟩).docTheme = some "dark"
      ∧ (toggleTheme ⟨none, none, none, false⟩).savedTheme = some "dark" :=
  (c10_toggle_mapping ⟨none, none, none, false⟩).1 (Or.inl rfl)

/-- JS number model for the ReadingProgress arithmetic: a rational
together with NaN and the two infinities, which the expression in
bindScrollEvent can produce through division by zero. The negative
zero of IEEE arithmetic is not modelled: the DOM geometry values feeding
the expression are not negative zeros. -/
inductive JsNum where
  | nan : JsNum
  | posInf : JsNum
  | negInf : JsNum
  | num : ℚ → JsNum
  deriving DecidableEq

/-- JS division for the one division in bindScrollEvent: finite by
finite nonzero is exact; x/0 is NaN for x = 0 and a signed infinity
otherwise; finite over infinity is 0. -/
def JsNum.div : JsNum → JsNum → JsNum
  | nan, _ => nan
  | _, nan => nan
  | posInf, posInf => nan
  | posInf, negInf => nan
  | negInf, posInf => nan
  | negInf, negInf => nan
  | posInf, num b => if 0 ≤ b then posInf else negInf
  | negInf, num b => if 0 ≤ b then negInf else posInf
  | num _, posInf => num 0
  | num _, negInf => num 0
  | num a, num b =>
      if b = 0 then (if a = 0 then nan else if 0 < a then posInf else negInf)
      else num (a / b)

/-- JS multiplication, used for the final `* 100`. -/
def JsNum.mul : JsNum → JsNum → JsNum
  | nan, _ => nan
  | _, nan => nan
  | posInf, posInf => posInf
  | posInf, negInf => negInf
  | negInf, posInf => negInf
  | negInf, negInf => posInf
  | posInf, num b => if b = 0 then nan else if 0 < b then posInf else negInf
  | negInf, num b => if b = 0 then nan else if 0 < b then negInf else posInf
  | num a, posInf => if a = 0 then nan else if 0 < a then posInf else negInf
  | num a, negInf => if a = 0 then nan else if 0 < a then negInf else posInf
  | num a, num b => num (a * b)

/-- JS Math.max: NaN if either argument is NaN. -/
def JsNum.jsMax : JsNum → JsNum → JsNum
  | nan, _ => nan
  | _, nan => nan
  | posInf, _ => posInf
  | _, posInf => posInf
  | negInf, b => b
  | a, negInf => a
  | num a, num b => num (max a b)

/-- JS Math.min: NaN if either argument is NaN. -/
def JsNum.jsMin : JsNum → JsNum → JsNum
  | nan, _ => nan
  | _, nan => nan
  | negInf, _ => negInf
  | _, negInf => negInf
  | posInf, b => b
  | a, posInf => a
  | num a, num b => num (min a b)

/-- JS comparison `<=`: false whenever NaN is involved. -/
def JsNum.jsLe : JsNum → JsNum → Bool
  | nan, _ => false
  | _, nan => false
  | negInf, _ => true
  | _, posInf => true
  | posInf, negInf => false
  | posInf, num _ => false
  | num _, negInf => false
  | num a, num b => decide (a ≤ b)

/-- Whether a JS number is a finite value inside the interval 0..100. -/
def JsNum.inZeroHundred : JsNum → Bool
  | num q => decide (0 ≤ q ∧ q ≤ 100)
  | _ => false

/-- The scroll handler of ReadingProgress.bindScrollEvent (main.js
lines 95-109): computes
`Math.min(100, Math.max(0, (scrollTop - contentTop + windowHeight) / contentHeight * 100))`
from the four live geometry values. -/
def scrollPercent (contentHeight contentTop scrollTop windowHeight : ℚ) : JsNum :=
  JsNum.jsMin (JsNum.num 100)
    (JsNum.jsMax (JsNum.num 0)
      (JsNum.mul
        (JsNum.div (JsNum.num (scrollTop - contentTop + windowHeight))
          (JsNum.num contentHeight))
        (JsNum.num 100)))

/-- Equation lemma for JsNum.div on two finite values. -/
theorem JsNum.div_num_num (a b : ℚ) :
    JsNum.div (JsNum.num a) (JsNum.num b)
      = if b = 0 then (if a = 0 then JsNum.nan else if 0 < a then JsNum.posInf else JsNum.negInf)
        else JsNum.num (a / b) := rfl

/-- Equation lemma for JsNum.mul on two finite values. -/
theorem JsNum.mul_num_num (a b : ℚ) :
    JsNum.mul (JsNum.num a) (JsNum.num b) = JsNum.num (a * b) := rfl

/-- Equation lemma for JsNum.mul with a positive infinity on the left. -/
theorem JsNum.mul_posInf_num (b : ℚ) :
    JsNum.mul JsNum.posInf (JsNum.num b)
      = if b = 0 then JsNum.nan else if 0 < b then JsNum.posInf else JsNum.negInf := rfl

/-- Equation lemma for JsNum.mul with a negative infinity on the left. -/
theorem JsNum.mul_negInf_num (b : ℚ) :
    JsNum.mul JsNum.negInf (JsNum.num b)
      = if b = 0 then JsNum.nan else if 0 < b then JsNum.negInf else JsNum.posInf := rfl

/-- Equation lemmas for JsNum.jsMax with a finite left argument. -/
theorem JsNum.jsMax_num_num (a b : ℚ) :
    JsNum.jsMax (JsNum.num a) (JsNum.num b) = JsNum.num (max a b) := rfl

/-- JsNum.jsMax of a finite value and the positive infinity. -/
theorem JsNum.jsMax_num_posInf (a : ℚ) :
    JsNum.jsMax (JsNum.num a) JsNum.posInf = JsNum.posInf := rfl

/-- JsNum.jsMax of a finite value and the negative infinity. -/
theorem JsNum.jsMax_num_negInf (a : ℚ) :
    JsNum.jsMax (JsNum.num a) JsNum.negInf = JsNum.num a := rfl

/-- Equation lemma for JsNum.jsMin on two finite values. -/
theorem JsNum.jsMin_num_num (a b : ℚ) :
    JsNum.jsMin (JsNum.num a) (JsNum.num b) = JsNum.num (min a b) := rfl

/-- JsNum.jsMin of a finite value and the positive infinity. -/
theorem JsNum.jsMin_num_posInf (a : ℚ) :
    JsNum.jsMin (JsNum.num a) JsNum.posInf = JsNum.num a := rfl

/-- Unfolding lemma: the scroll percentage with a nonzero content
height is the exact clamped rational. -/
theorem scrollPercent_eq_num (contentHeight contentTop scrollTop windowHeight : ℚ)
    (h : contentHeight ≠ 0) :
    scrollPercent contentHeight contentTop scrollTop windowHeight
      = JsNum.num
          (min 100 (max 0 ((scrollTop - contentTop + windowHeight) / contentHeight * 100))) := by
  unfold scrollPercent
  rw [JsNum.div_num_num, if_neg h, JsNum.mul_num_num, JsNum.jsMax_num_num, JsNum.jsMin_num_num]

/-- Unfolding lemma: the scroll percentage with content height zero and
a positive numerator clamps the positive infinity to 100. -/
theorem scrollPercent_zero_pos (contentTop scrollTop windowHeight : ℚ)
    (h : 0 < scrollTop - contentTop + windowHeight) :
    scrollPercent 0 contentTop scrollTop windowHeight = JsNum.num 100 := by
  unfold scrollPercent
  rw [JsNum.div_num_num, if_pos rfl, if_neg h.ne', if_pos h, JsNum.mul_posInf_num,
    if_neg (by norm_num : (100 : ℚ) ≠ 0), if_pos (by norm_num : (0 : ℚ) < 100),
    JsNum.jsMax_num_posInf, JsNum.jsMin_num_posInf]

/-- Unfolding lemma: the scroll percentage with content height zero and
a negative numerator clamps the negative infinity to 0. -/
theorem scrollPercent_zero_neg (contentTop scrollTop windowHeight : ℚ)
    (h : scrollTop - contentTop + windowHeight < 0) :
    scrollPercent 0 contentTop scrollTop windowHeight = JsNum.num 0 := by
  unfold scrollPercent
  rw [JsNum.div_num_num, if_pos rfl, if_neg h.ne, if_neg (not_lt.mpr h.le),
    JsNum.mul_negInf_num, if_neg (by norm_num : (100 : ℚ) ≠ 0),
    if_pos (by norm_num : (0 : ℚ) < 100), JsNum.jsMax_num_negInf, JsNum.jsMin_num_num]
  norm_num

/-- C4 counterexample: at the geometry with content height 0, content
top 300, scroll offset 0 and viewport height 300 the computation is
0 / 0 and yields NaN, which lies in no interval: the percentage is not
always in 0..100. -/
theorem c4_counterexample_nan_geometry :
    (scrollPercent 0 300 0 300).inZeroHundred = false
      ∧ scrollPercent 0 300 0 300 = JsNum.nan := by
  have hn : scrollPercent 0 300 0 300 = JsNum.nan := by
    unfold scrollPercent
    rw [JsNum.div_num_num, if_pos rfl, if_pos (by norm_num : (0 : ℚ) - 300 + 300 = 0)]
    rfl
  rw [hn]
  exact ⟨rfl, rfl⟩

/-- C4 (amended): for every geometry except the doubly degenerate one
(content height 0 together with numerator
scrollTop - contentTop + windowHeight equal to 0, which yields NaN),
the computed scroll percentage is a finite value in 0..100. -/
theorem c4_scroll_percent_clamped (contentHeight contentTop scrollTop windowHeight : ℚ)
    (h : contentHeight ≠ 0 ∨ scrollTop - contentTop + windowHeight ≠ 0) :
    (scrollPercent contentHeight contentTop scrollTop windowHeight).inZeroHundred = true := by
  by_cases hch : contentHeight = 0
  · subst hch
    have hnum : scrollTop - contentTop + windowHeight ≠ 0 := by
      rcases h with h | h
      · exact absurd rfl h
      · exact h
    rcases lt_or_gt_of_ne hnum with hlt | hgt
    · rw [scrollPercent_zero_neg _ _ _ hlt]
      rfl
    · rw [scrollPercent_zero_pos _ _ _ hgt]
      rfl
  · rw [scrollPercent_eq_num _ _ _ _ hch]
    simp only [JsNum.inZeroHundred, decide_eq_true_eq]
    constructor
    · exact le_min (by norm_num) (le_max_left 0 _)
    · exact min_le_left 100 _

/-- C4 witness: the clamping theorem applied at the concrete geometry
with content height 1 and everything else 0. -/
theorem c4_scroll_percent_clamped_witness :
    (scrollPercent 1 0 0 0).inZeroHundred = true :=
  c4_scroll_percent_clamped 1 0 0 0 (Or.inl (by norm_num))

/-- Equation lemma for JsNum.jsLe on two finite values. -/
theorem JsNum.jsLe_num_num (a b : ℚ) :
    JsNum.jsLe (JsNum.num a) (JsNum.num b) = decide (a ≤ b) := rfl

/-- C5 counterexample: with content height 0, content top 1 and
viewport height 0, increasing the scroll offset from 0 to 1 moves the
computed percentage from 0 to NaN, and NaN is not greater or equal to
anything under the JS comparison: the percentage is not monotonically
non-decreasing for every fixed geometry. -/
theorem c5_counterexample_zero_height_not_monotone :
    JsNum.jsLe (scrollPercent 0 1 0 0) (scrollPercent 0 1 1 0) = false
      ∧ (0 : ℚ) ≤ 1 := by
  have h1 : scrollPercent 0 1 0 0 = JsNum.num 0 :=
    scrollPercent_zero_neg 1 0 0 (by norm_num)
  have h2 : scrollPercent 0 1 1 0 = JsNum.nan := by
    unfold scrollPercent
    rw [JsNum.div_num_num, if_pos rfl, if_pos (by norm_num : (1 : ℚ) - 1 + 0 = 0)]
    rfl
  rw [h1, h2]
  exact ⟨rfl, by norm_num⟩

/-- C5 (amended): for every fixed geometry with positive content height
the computed scroll percentage is monotonically non-decreasing in the
scroll offset. (For content height 0 the value can pass through NaN, as
the counterexample shows, and a negative content height, which no DOM
layout produces, would make the ramp decreasing.) -/
theorem c5_scroll_percent_monotone (contentHeight contentTop windowHeight st1 st2 : ℚ)
    (hch : 0 < contentHeight) (hst : st1 ≤ st2) :
    JsNum.jsLe (scrollPercent contentHeight contentTop st1 windowHeight)
      (scrollPercent contentHeight contentTop st2 windowHeight) = true := by
  rw [scrollPercent_eq_num _ _ _ _ hch.ne', scrollPercent_eq_num _ _ _ _ hch.ne',
    JsNum.jsLe_num_num]
  refine decide_eq_true ?_
  have h1 : st1 - contentTop + windowHeight ≤ st2 - contentTop + windowHeight := by
    linarith
  have h2 : (st1 - contentTop + windowHeight) / contentHeight
      ≤ (st2 - contentTop + windowHeight) / contentHeight := by
    rw [div_eq_mul_inv, div_eq_mul_inv]
    exact mul_le_mul_of_nonneg_right h1 (inv_nonneg.mpr hch.le)
  have h3 : (st1 - contentTop + windowHeight) / contentHeight * 100
      ≤ (st2 - contentTop + windowHeight) / contentHeight * 100 :=
    mul_le_mul_of_nonneg_right h2 (by norm_num)
  exact min_le_min le_rfl (max_le_max le_rfl h3)

/-- C5 witness: monotonicity applied at content height 1, scroll
offsets 0 and 1. -/
theorem c5_scroll_percent_monotone_witness :
    JsNum.jsLe (scrollPercent 1 0 0 0) (scrollPercent 1 0 1 0) = true :=
  c5_scroll_percent_monotone 1 0 0 0 1 (by norm_num) (by norm_num)

/-- An image element as LazyLoader sees it: the live `src` attribute,
the deferred `data-src` attribute, and whether loadImage installed the
onload handler that later clears blur and restores opacity. -/
structure Img where
  src : Option String
  dataSrc : Option String
  onloadHandlerInstalled : Bool
  deriving DecidableEq

/-- LazyLoader.loadImage (main.js lines 146-158): when the `data-src`
value is truthy it is assigned to `src`, the `data-src` attribute is
removed and the onload handler is installed; otherwise nothing
happens. -/
def loadImage (img : Img) : Img :=
  if jsTruthy img.dataSrc then
    { img with src := img.dataSrc, dataSrc := none, onloadHandlerInstalled := true }
  else img

/-- LazyLoader.loadAllImages (main.js lines 160-164), the fallback when
no intersection facility exists: applies loadImage to every image the
selector `img[data-src]` matches, that is every image whose `data-src`
attribute is present. -/
def loadAllImages (imgs : List Img) : List Img :=
  imgs.map (fun img => if img.dataSrc.isSome then loadImage img else img)

/-- State of the LazyLoader observer machinery: which image (indexed by
a natural number identity) is currently observed, the image elements
themselves, and how many times loadImage has been invoked on each. -/
structure LazyState where
  observed : Nat → Bool
  imgs : Nat → Img
  loadInvocations : Nat → Nat

/-- One intersection record as delivered to the observer callback. -/
structure ObsEntry where
  target : Nat
  isIntersecting : Bool

/-- The body of the forEach in the IntersectionObserver callback
(main.js lines 121-128): on an intersecting entry it invokes loadImage
on the target and unobserves it; a non-intersecting entry is
ignored. -/
def intersectionCallbackStep (s : LazyState) (e : ObsEntry) : LazyState :=
  if e.isIntersecting then
    { observed := fun i => if i = e.target then false else s.observed i,
      imgs := fun i => if i = e.target then loadImage (s.imgs i) else s.imgs i,
      loadInvocations := fun i => if i = e.target then s.loadInvocations i + 1
        else s.loadInvocations i }
  else s

/-- A run of the observer: the entries of all callback invocations,
flattened in delivery order, processed left to right. -/
def runDeliveries (s : LazyState) (es : List ObsEntry) : LazyState :=
  es.foldl intersectionCallbackStep s

/-- The browser guarantee behind unobserve: an entry is only delivered
for a target that is still observed when the entry is processed.
Unobserving a target stops all further deliveries for it. -/
def ValidDeliveries : LazyState → List ObsEntry → Prop
  | _, [] => True
  | s, e :: rest => s.observed e.target = true
      ∧ ValidDeliveries (intersectionCallbackStep s e) rest

/-- Helper invariant for the at-most-once property: every image has at
most one loadImage invocation so far, and an image still observed has
none. One valid delivery preserves it, hence any valid run does. -/
theorem runDeliveries_invariant (es : List ObsEntry) :
    ∀ s : LazyState, ValidDeliveries s es →
      (∀ i, s.loadInvocations i ≤ 1 ∧ (s.observed i = true → s.loadInvocations i = 0)) →
      ∀ i, (runDeliveries s es).loadInvocations i ≤ 1
        ∧ ((runDeliveries s es).observed i = true → (runDeliveries s es).loadInvocations i = 0) := by
  induction es with
  | nil => intro s _ hinv i; exact hinv i
  | cons e rest ih =>
      intro s hv hinv
      obtain ⟨hobs, hv1⟩ := hv
      refine ih (intersectionCallbackStep s e) hv1 ?_
      intro i
      by_cases hint : e.isIntersecting = true
      · by_cases hi : i = e.target
        · subst hi
          constructor
          · simp [intersectionCallbackStep, hint, (hinv e.target).2 hobs]
          · intro h2
            simp [intersectionCallbackStep, hint] at h2
        · constructor
          · simpa [intersectionCallbackStep, hint, hi] using (hinv i).1
          · intro h2
            simp [intersectionCallbackStep, hint, hi] at h2
            simpa [intersectionCallbackStep, hint, hi] using (hinv i).2 h2
      · have hstep : intersectionCallbackStep s e = s := by
          simp [intersectionCallbackStep, hint]
        rw [hstep]
        exact hinv i

/-- C8: along every valid sequence of intersection notifications (each
delivered entry targets a still-observed image), starting from a state
with no loadImage invocations yet, every image receives at most one
loadImage invocation: unobserving immediately after loading prevents a
second load. -/
theorem c8_load_at_most_once (s : LazyState) (es : List ObsEntry)
    (hv : ValidDeliveries s es) (h0 : ∀ i, s.loadInvocations i = 0) :
    ∀ i, (runDeliveries s es).loadInvocations i ≤ 1 := by
  intro i
  exact (runDeliveries_invariant es s hv
    (fun j => ⟨by rw [h0 j]; norm_num, fun _ => h0 j⟩) i).1

/-- C8 witness: a single observed image, one intersecting notification
for it; the image ends with at most one load invocation. -/
theorem c8_load_at_most_once_witness :
    (runDeliveries
        ⟨fun i => decide (i = 0), fun _ => ⟨none, some "x.png", false⟩, fun _ => 0⟩
        [⟨0, true⟩]).loadInvocations 0 ≤ 1 :=
  c8_load_at_most_once
    ⟨fun i => decide (i = 0), fun _ => ⟨none, some "x.png", false⟩, fun _ => 0⟩
    [⟨0, true⟩] ⟨rfl, trivial⟩ (fun _ => rfl) 0

/-- C7: the loadImage contract. An image carrying a truthy deferred
value v ends with live source v and no deferred attribute; an image
with no truthy deferred value is left unchanged; and the
no-intersection-facility fallback applies exactly loadImage to every
image, so each marked image gets the same contract immediately. -/
theorem c7_load_image_contract :
    (∀ (img : Img) (v : String), img.dataSrc = some v → v ≠ "" →
        (loadImage img).src = some v ∧ (loadImage img).dataSrc = none)
      ∧ (∀ img : Img, jsTruthy img.dataSrc = false → loadImage img = img)
      ∧ (∀ imgs : List Img, loadAllImages imgs = List.map loadImage imgs) := by
  refine ⟨?_, ?_, ?_⟩
  · intro img v hv hne
    have ht : jsTruthy img.dataSrc = true := by
      rw [hv]
      exact decide_eq_true hne
    unfold loadImage
    rw [if_pos ht, hv]
    exact ⟨rfl, rfl⟩
  · intro img hf
    unfold loadImage
    rw [hf]
    simp
  · intro imgs
    unfold loadAllImages
    induction imgs with
    | nil => rfl
    | cons img rest ih =>
        simp only [List.map_cons, List.cons.injEq]
        refine ⟨?_, ih⟩
        by_cases hd : img.dataSrc.isSome
        · rw [if_pos hd]
        · rw [if_neg hd]
          have hnone : img.dataSrc = none := Option.not_isSome_iff_eq_none.mp hd
          unfold loadImage
          rw [hnone]
          simp [jsTruthy]

/-- C7 witness: the contract at a concrete image with deferred value
`x.png`, and at a concrete image with no deferred attribute. -/
theorem c7_load_image_contract_witness :
    ((loadImage ⟨some "old", some "x.png", false⟩).src = some "x.png"
        ∧ (loadImage ⟨some "old", some "x.png", false⟩).dataSrc = none)
      ∧ loadImage ⟨some "old", none, false⟩ = ⟨some "old", none, false⟩ :=
  ⟨c7_load_image_contract.1 ⟨some "old", some "x.png", false⟩ "x.png" rfl (by decide),
    c7_load_image_contract.2.1 ⟨some "old", none, false⟩ rfl⟩

/-- One clipboard-related action the CodeBlockCopy click path can
perform, in order: the asynchronous clipboard write request; on
rejection the error log and the legacy fallback (create an off-tree
textarea with the text, select it, issue the legacy copy command,
remove the textarea). -/
inductive ClipAction where
  | asyncClipboardWrite : String → ClipAction
  | logError : ClipAction
  | fallbackCreateTextArea : String → ClipAction
  | fallbackSelect : ClipAction
  | fallbackExecCopy : ClipAction
  | fallbackRemoveTextArea : ClipAction
  deriving DecidableEq

/-- Outcome of the asynchronous clipboard write promise. -/
inductive ClipboardOutcome where
  | fulfilled : ClipboardOutcome
  | rejected : ClipboardOutcome
  deriving DecidableEq

/-- CodeBlockCopy.copyToClipboard (main.js lines 222-233): always
requests the asynchronous write; only on rejection does the catch
handler log and run the legacy fallback. The fallback result is never
inspected. -/
def copyToClipboard (text : String) (outcome : ClipboardOutcome) : List ClipAction :=
  match outcome with
  | ClipboardOutcome.fulfilled => [ClipAction.asyncClipboardWrite text]
  | ClipboardOutcome.rejected =>
      [ClipAction.asyncClipboardWrite text, ClipAction.logError,
        ClipAction.fallbackCreateTextArea text, ClipAction.fallbackSelect,
        ClipAction.fallbackExecCopy, ClipAction.fallbackRemoveTextArea]

/-- A pre-formatted block as the click handler sees it: the innerText
of its first code element, or none when the block contains no code
element (querySelector returns null). -/
structure PreBlock where
  codeInnerText : Option String
  deriving DecidableEq

/-- What a completed copy-button click does: the clipboard actions it
starts, the icon shown immediately, the delay of the timer, and the
icon restored when the timer fires. -/
structure ClickAck where
  clipboardActions : List ClipAction
  iconImmediately : String
  revertDelayMs : Nat
  iconAfterRevert : String
  deriving DecidableEq

/-- The click handler installed by CodeBlockCopy.addCopyButton
(main.js lines 209-219). It first evaluates
`pre.querySelector('code').innerText`, which throws a TypeError when
the block has no code element; otherwise it starts copyToClipboard
(not awaited), swaps the button icon to the checkmark unconditionally,
and schedules the restore of the original icon after 2000 ms. -/
def copyButtonClick (pre : PreBlock) (buttonHTML : String) (outcome : ClipboardOutcome) :
    Except String ClickAck :=
  match pre.codeInnerText with
  | none => Except.error "TypeError: Cannot read properties of null (reading innerText)"
  | some code =>
      Except.ok
        { clipboardActions := copyToClipboard code outcome,
          iconImmediately := "✅",
          revertDelayMs := 2000,
          iconAfterRevert := buttonHTML }

/-- Whether the click handler ran to completion without raising. -/
def clickCompletes (pre : PreBlock) (buttonHTML : String) (outcome : ClipboardOutcome) : Bool :=
  match copyButtonClick pre buttonHTML outcome with
  | Except.ok _ => true
  | Except.error _ => false

/-- C3 counterexample: on a pre-formatted block containing no code
element the click handler does not complete: dereferencing the null
querySelector result raises, contradicting the claim that it completes
for every block it was attached to. -/
theorem c3_counterexample_click_raises_without_code :
    clickCompletes ⟨none⟩ "📋" ClipboardOutcome.fulfilled = false := by
  decide

/-- C3 (amended): the copy-button click handler completes without
raising exactly for those pre-formatted blocks that contain a code
element; on a block with no code element it raises a TypeError. -/
theorem c3_click_completes_iff_code_present (pre : PreBlock) (buttonHTML : String)
    (outcome : ClipboardOutcome) :
    clickCompletes pre buttonHTML outcome = pre.codeInnerText.isSome := by
  obtain ⟨ci⟩ := pre
  cases ci <;> rfl

/-- C6 counterexample: a copy-button click on a pre-formatted block
with no code element raises before reaching the icon logic, for either
clipboard outcome: no checkmark is shown and no 2000 ms timer is
scheduled, so the acknowledgment does not happen on every click. -/
theorem c6_counterexample_no_ack_without_code :
    copyButtonClick ⟨none⟩ "📋" ClipboardOutcome.fulfilled
        = Except.error "TypeError: Cannot read properties of null (reading innerText)"
      ∧ copyButtonClick ⟨none⟩ "📋" ClipboardOutcome.rejected
        = Except.error "TypeError: Cannot read properties of null (reading innerText)" :=
  ⟨rfl, rfl⟩

/-- C6 (amended): on every copy-button click on a block with a code element, the
acknowledgment is unconditional: whatever the clipboard outcome, the
handler completes, the icon becomes the checkmark immediately, and the
original icon is restored after the fixed 2000 ms delay. -/
theorem c6_ack_unconditional (pre : PreBlock) (buttonHTML code : String)
    (outcome : ClipboardOutcome) (h : pre.codeInnerText = some code) :
    ∃ ack : ClickAck, copyButtonClick pre buttonHTML outcome = Except.ok ack
      ∧ ack.iconImmediately = "✅"
      ∧ ack.revertDelayMs = 2000
      ∧ ack.iconAfterRevert = buttonHTML := by
  obtain ⟨ci⟩ := pre
  simp only at h
  subst h
  exact ⟨_, rfl, rfl, rfl, rfl⟩

/-- C6 witness: the unconditional acknowledgment at a concrete block,
original icon and the rejected clipboard outcome. -/
theorem c6_ack_unconditional_witness :
    ∃ ack : ClickAck,
      copyButtonClick ⟨some "let x = 1"⟩ "📋" ClipboardOutcome.rejected = Except.ok ack
        ∧ ack.iconImmediately = "✅"
        ∧ ack.revertDelayMs = 2000
        ∧ ack.iconAfterRevert = "📋" :=
  c6_ack_unconditional ⟨some "let x = 1"⟩ "📋" "let x = 1" ClipboardOutcome.rejected rfl
